import Mathlib

/-!
# TestFlow backend — verification of the task lifecycle and access-control core

Shallow embedding of the TestFlow task-tracking backend (Rust/axum).
The data model follows `backend/src/models.rs` and `backend/src/dto.rs`;
handler logic follows `src/handlers/task_handler.rs`,
`src/handlers/user_handler.rs`, `src/handlers/auth_handler.rs` and
`src/auth.rs`.  Database identifiers (`Uuid`) are modelled as naturals,
`NaiveDateTime` timestamps as naturals.  Database reads are passed in as
explicit arguments (the looked-up row, the affected-row count), database
writes are the returned value.
-/

namespace TestFlow

/-- `uuid::Uuid`, modelled as an opaque numeric identifier. -/
abbrev Uuid := Nat

/-- `chrono::NaiveDateTime`, modelled as a numeric timestamp. -/
abbrev Timestamp := Nat

/-- `UserRole` from `models.rs`. -/
inductive UserRole
  | Admin
  | Manager
  | Tester
  | Developer
  deriving DecidableEq, Repr

/-- `TaskStatus` from `models.rs`. -/
inductive TaskStatus
  | New
  | InProgress
  | Testing
  | Done
  | Closed
  deriving DecidableEq, Repr

/-- `TaskUrgency` from `models.rs`. -/
inductive TaskUrgency
  | Low
  | Medium
  | High
  | Critical
  deriving DecidableEq, Repr

/-- `User` from `models.rs`. -/
structure User where
  id : Uuid
  username : String
  email : String
  password_hash : String
  full_name : String
  role : UserRole
  is_active : Bool
  created_at : Timestamp
  updated_at : Timestamp
  deriving DecidableEq, Repr

/-- `Task` from `models.rs`. -/
structure Task where
  id : Uuid
  task_number : Int
  title : String
  description : Option String
  assigned_by : Uuid
  tester_id : Option Uuid
  status : TaskStatus
  urgency : TaskUrgency
  created_at : Timestamp
  closed_at : Option Timestamp
  acceptance_criteria : Option String
  evaluation_criteria : Option String
  comment : Option String
  deriving DecidableEq, Repr

/-- Modelled from the spec: the error taxonomy of §7.  `errors.rs` is not
among the provided sources; the six variants and their use are fixed by the
spec's taxonomy and by every construction site in the provided handlers
(each variant carries a message string). -/
inductive AppError
  | Unauthorized (msg : String)
  | Forbidden (msg : String)
  | NotFound (msg : String)
  | BadRequest (msg : String)
  | Conflict (msg : String)
  | Internal (msg : String)
  deriving DecidableEq, Repr

/-- The "shape" of an error: its variant, which determines the HTTP status
(401/403/404/400/409/500), independent of the message text. -/
inductive ErrorKind
  | Unauthorized
  | Forbidden
  | NotFound
  | BadRequest
  | Conflict
  | Internal
  deriving DecidableEq, Repr

def AppError.kind : AppError → ErrorKind
  | .Unauthorized _ => .Unauthorized
  | .Forbidden _ => .Forbidden
  | .NotFound _ => .NotFound
  | .BadRequest _ => .BadRequest
  | .Conflict _ => .Conflict
  | .Internal _ => .Internal

/-- The variant of the error of a failed handler result, `none` on success. -/
def errorKind {α : Type} : Except AppError α → Option ErrorKind
  | .error e => some e.kind
  | .ok _ => none

/-- `AuthUser` from `auth.rs`: the authenticated identity extracted from the
bearer token of a request. -/
structure AuthUser where
  user_id : Uuid
  username : String
  role : UserRole
  deriving DecidableEq, Repr

def AuthUser.is_admin (a : AuthUser) : Bool := a.role = UserRole.Admin

def AuthUser.is_manager (a : AuthUser) : Bool := a.role = UserRole.Manager

/-- `UpdateTaskRequest` from `dto.rs`: every field optional. -/
structure UpdateTaskRequest where
  title : Option String
  description : Option String
  tester_id : Option Uuid
  status : Option TaskStatus
  urgency : Option TaskUrgency
  acceptance_criteria : Option String
  evaluation_criteria : Option String
  comment : Option String
  deriving DecidableEq, Repr

/-- `CreateTaskRequest` from `dto.rs`. -/
structure CreateTaskRequest where
  title : String
  description : Option String
  tester_id : Option Uuid
  urgency : Option TaskUrgency
  acceptance_criteria : Option String
  evaluation_criteria : Option String
  comment : Option String
  deriving DecidableEq, Repr

/-- `payload.validate()` for `UpdateTaskRequest`: a present title must have
length 1..=255 (validator attribute on `title`); all other fields carry no
constraint. -/
def UpdateTaskRequest.valid (p : UpdateTaskRequest) : Bool :=
  match p.title with
  | none => true
  | some t => 1 ≤ t.length ∧ t.length ≤ 255

/-- `payload.validate()` for `CreateTaskRequest`: title length 1..=255. -/
def CreateTaskRequest.valid (p : CreateTaskRequest) : Bool :=
  1 ≤ p.title.length ∧ p.title.length ≤ 255

/-- The field-merge and `closed_at` logic of `update_task`
(`task_handler.rs` lines 258-271) followed by the UPDATE ... RETURNING row:
present fields replace, absent fields keep the existing value
(`unwrap_or` on required columns, `Option::or` on nullable columns), and
`closed_at` is recomputed from the resulting status. -/
def applyTaskUpdate (existing : Task) (payload : UpdateTaskRequest)
    (now : Timestamp) : Task :=
  let new_title := payload.title.getD existing.title
  let new_description := payload.description.or existing.description
  let new_tester_id := payload.tester_id.or existing.tester_id
  let new_status := payload.status.getD existing.status
  let new_urgency := payload.urgency.getD existing.urgency
  let new_acceptance := payload.acceptance_criteria.or existing.acceptance_criteria
  let new_evaluation := payload.evaluation_criteria.or existing.evaluation_criteria
  let new_comment := payload.comment.or existing.comment
  let closed_at :=
    if new_status = TaskStatus.Closed ∨ new_status = TaskStatus.Done then
      some now
    else
      existing.closed_at
  { existing with
      title := new_title
      description := new_description
      tester_id := new_tester_id
      status := new_status
      urgency := new_urgency
      acceptance_criteria := new_acceptance
      evaluation_criteria := new_evaluation
      comment := new_comment
      closed_at := closed_at }

/-- `update_task` from `task_handler.rs`: admin gate, payload validation,
task lookup (the fetched row passed as `existing`), then the merge. -/
def update_task (auth : AuthUser) (existing : Option Task)
    (payload : UpdateTaskRequest) (now : Timestamp) : Except AppError Task :=
  if auth.is_admin then
    .error (.Forbidden "Administrators cannot edit tasks")
  else if ¬ payload.valid then
    .error (.BadRequest "Validation error")
  else
    match existing with
    | none => .error (.NotFound "Task not found")
    | some t => .ok (applyTaskUpdate t payload now)

/-- The row inserted by `create_task` (`task_handler.rs` lines 181-202):
creator is the caller, urgency defaults to `medium` when omitted. -/
structure TaskInsert where
  title : String
  description : Option String
  assigned_by : Uuid
  tester_id : Option Uuid
  urgency : TaskUrgency
  acceptance_criteria : Option String
  evaluation_criteria : Option String
  comment : Option String
  deriving DecidableEq, Repr

/-- `create_task` from `task_handler.rs`: admin gate, payload validation,
then the INSERT row. -/
def create_task (auth : AuthUser) (payload : CreateTaskRequest) :
    Except AppError TaskInsert :=
  if auth.is_admin then
    .error (.Forbidden "Administrators cannot create tasks")
  else if ¬ payload.valid then
    .error (.BadRequest "Validation error")
  else
    .ok { title := payload.title
          description := payload.description
          assigned_by := auth.user_id
          tester_id := payload.tester_id
          urgency := payload.urgency.getD TaskUrgency.Medium
          acceptance_criteria := payload.acceptance_criteria
          evaluation_criteria := payload.evaluation_criteria
          comment := payload.comment }

/-- `delete_task` from `task_handler.rs`: admin gate, task lookup, then
the creator-or-manager ownership check. -/
def delete_task (auth : AuthUser) (existing : Option Task) :
    Except AppError Unit :=
  if auth.is_admin then
    .error (.Forbidden "Administrators cannot manage tasks")
  else
    match existing with
    | none => .error (.NotFound "Task not found")
    | some task =>
      if task.assigned_by ≠ auth.user_id ∧ ¬ auth.is_manager then
        .error (.Forbidden "Only the task creator or a manager can delete tasks")
      else
        .ok ()

/-- `require_admin` from `user_handler.rs`. -/
def require_admin (auth : AuthUser) : Except AppError Unit :=
  if ¬ auth.is_admin then
    .error (.Forbidden "Only administrators can manage users")
  else
    .ok ()

/-- `delete_user` from `user_handler.rs`: admin gate first, then the
self-delete guard, then the DELETE (its affected-row count passed in). -/
def delete_user (auth : AuthUser) (id : Uuid) (rows_affected : Nat) :
    Except AppError Unit :=
  match require_admin auth with
  | .error e => .error e
  | .ok _ =>
    if id = auth.user_id then
      .error (.BadRequest "Cannot delete your own account")
    else if rows_affected = 0 then
      .error (.NotFound "User not found")
    else
      .ok ()

/-- `Claims` from `auth.rs`: the session claim carried by a token. -/
structure Claims where
  sub : Uuid
  username : String
  role : String
  exp : Nat
  iat : Nat
  deriving DecidableEq, Repr

/-- A signed token on the wire: the claims payload together with the
signature value computed over it.  The signature scheme (an HMAC over the
serialized payload keyed by the server secret) is abstracted as a function
argument `mac` wherever it is consumed. -/
structure Token where
  claims : Claims
  sig : Nat
  deriving DecidableEq, Repr

/-- `verify_token` from `auth.rs`.  Modelled from the spec: the decode step
is the external `jsonwebtoken` collaborator (not part of this repository's
sources); per spec §4.1 it accepts a token exactly when the signature
matches the server secret and the token is unexpired (fails when current
time ≥ expires-at), and `verify_token` maps every decode failure to
`Unauthorized` (the repository's own `.map_err` on line 57 of `auth.rs`;
the message carries the library's error text, abstracted here to a fixed
string). -/
def verify_token (mac : String → Claims → Nat) (secret : String)
    (now : Nat) (tok : Token) : Except AppError Claims :=
  if tok.sig = mac secret tok.claims ∧ now < tok.claims.exp then
    .ok tok.claims
  else
    .error (.Unauthorized "Invalid token")

/-- `LoginRequest` from `dto.rs`. -/
structure LoginRequest where
  username : String
  password : String
  deriving DecidableEq, Repr

/-- `payload.validate()` for `LoginRequest`: both fields nonempty. -/
def LoginRequest.valid (p : LoginRequest) : Bool :=
  1 ≤ p.username.length ∧ 1 ≤ p.password.length

/-- `find_user_by_username`: the handler's `SELECT ... WHERE username = $1`,
a case-sensitive exact match over the user table. -/
def find_user_by_username (users : List User) (username : String) :
    Option User :=
  users.find? (fun u => u.username = username)

/-- `login` from `auth_handler.rs`.  The argon2 collaborator is abstracted:
`hashParses` is `PasswordHash::new` succeeding on a stored hash string, and
`pwMatches password hash` is `Argon2::default().verify_password`.  Token
issuance on the success path is abstracted to returning the authenticated
user row (the handler then builds `LoginResponse` from it). -/
def login (users : List User) (hashParses : String → Bool)
    (pwMatches : String → String → Bool) (payload : LoginRequest) :
    Except AppError User :=
  if ¬ payload.valid then
    .error (.BadRequest "Validation error")
  else
    match find_user_by_username users payload.username with
    | none => .error (.Unauthorized "Invalid username or password")
    | some user =>
      if ¬ user.is_active then
        .error (.Unauthorized "Account is deactivated")
      else if ¬ hashParses user.password_hash then
        .error (.Internal "Password hash error")
      else if ¬ pwMatches payload.password user.password_hash then
        .error (.Unauthorized "Invalid username or password")
      else
        .ok user

/-- `TaskFilterParams` from `dto.rs`. -/
structure TaskFilterParams where
  page : Option Int
  per_page : Option Int
  status : Option TaskStatus
  urgency : Option TaskUrgency
  tester_id : Option Uuid
  assigned_by : Option Uuid
  deriving DecidableEq, Repr

/-- The WHERE clause of the `get_tasks` query: each filter, when present,
must match (AND semantics). -/
def matchesFilters (params : TaskFilterParams) (t : Task) : Bool :=
  (match params.status with | none => true | some s => t.status = s) &&
  (match params.urgency with | none => true | some u => t.urgency = u) &&
  (match params.tester_id with | none => true | some tid => t.tester_id = some tid) &&
  (match params.assigned_by with | none => true | some a => t.assigned_by = a)

/-- The ordering the `get_tasks` query requests: `ORDER BY created_at DESC`
and nothing else. -/
def createdAtDesc (a b : Task) : Prop := b.created_at ≤ a.created_at

instance : DecidableRel createdAtDesc := fun a b =>
  inferInstanceAs (Decidable (b.created_at ≤ a.created_at))

/-- Page-parameter normalization of `get_tasks` (`task_handler.rs` lines
76-78): page defaults to 1 and is at least 1, per_page defaults to 20 and
is clamped to [1,100]. -/
def pageWindow (params : TaskFilterParams) : Int × Int :=
  let page := max (params.page.getD 1) 1
  let per_page := min (max (params.per_page.getD 20) 1) 100
  (per_page, (page - 1) * per_page)

/-- Relational embedding of the `get_tasks` SELECT: `out` is a possible
response exactly when it is the LIMIT/OFFSET window of some arrangement of
the filtered rows that satisfies `ORDER BY created_at DESC`.  SQL
constrains the order of rows with equal `created_at` no further, so any
such arrangement is a legal result. -/
def getTasksResult (db : List Task) (params : TaskFilterParams)
    (out : List Task) : Prop :=
  ∃ arranged : List Task,
    arranged.Perm (db.filter (matchesFilters params)) ∧
    arranged.Pairwise createdAtDesc ∧
    out = ((arranged.drop (pageWindow params).2.toNat).take
      (pageWindow params).1.toNat)

/-! Concrete fixtures used by witnesses and counterexamples. -/

/-- A task that is open, has a tester assigned, and was never closed. -/
def sampleTask : Task :=
  { id := 1, task_number := 1, title := "fix login form", description := some "desc"
    assigned_by := 2, tester_id := some 3, status := TaskStatus.New
    urgency := TaskUrgency.Medium, created_at := 10, closed_at := none
    acceptance_criteria := some "acc", evaluation_criteria := some "eval"
    comment := some "c" }

/-- A task whose optional fields are all unset. -/
def bareTask : Task :=
  { id := 4, task_number := 2, title := "write docs", description := none
    assigned_by := 2, tester_id := none, status := TaskStatus.New
    urgency := TaskUrgency.Low, created_at := 11, closed_at := none
    acceptance_criteria := none, evaluation_criteria := none, comment := none }

/-- A task already closed at time 5. -/
def closedTask : Task :=
  { id := 6, task_number := 3, title := "ship release", description := none
    assigned_by := 2, tester_id := some 3, status := TaskStatus.Closed
    urgency := TaskUrgency.High, created_at := 1, closed_at := some 5
    acceptance_criteria := none, evaluation_criteria := none, comment := none }

/-- An update request that only sets the status to Closed. -/
def closePayload : UpdateTaskRequest :=
  { title := none, description := none, tester_id := none
    status := some TaskStatus.Closed, urgency := none
    acceptance_criteria := none, evaluation_criteria := none, comment := none }

/-- An update request that only sets the status back to New. -/
def reopenPayload : UpdateTaskRequest :=
  { title := none, description := none, tester_id := none
    status := some TaskStatus.New, urgency := none
    acceptance_criteria := none, evaluation_criteria := none, comment := none }

/-- The empty update request: every field omitted. -/
def emptyPayload : UpdateTaskRequest :=
  { title := none, description := none, tester_id := none, status := none
    urgency := none, acceptance_criteria := none, evaluation_criteria := none
    comment := none }

def adminAuth : AuthUser := { user_id := 2, username := "root", role := UserRole.Admin }

def managerAuth : AuthUser := { user_id := 8, username := "mia", role := UserRole.Manager }

def testerAuth : AuthUser := { user_id := 7, username := "tess", role := UserRole.Tester }

/-- A well-formed create request. -/
def sampleCreate : CreateTaskRequest :=
  { title := "new task", description := none, tester_id := none
    urgency := none, acceptance_criteria := none
    evaluation_criteria := none, comment := none }

/-- A deactivated user with a well-formed stored hash. -/
def inactiveUser : User :=
  { id := 20, username := "dora", email := "d@x", password_hash := "h1"
    full_name := "Dora D", role := UserRole.Developer, is_active := false
    created_at := 1, updated_at := 1 }

/-- An active user. -/
def activeUser : User :=
  { id := 21, username := "finn", email := "f@x", password_hash := "h2"
    full_name := "Finn F", role := UserRole.Tester, is_active := true
    created_at := 1, updated_at := 1 }

def userTable : List User := [inactiveUser, activeUser]

/-- A concrete session claim expiring at time 10. -/
def sampleClaims : Claims :=
  { sub := 1, username := "a", role := "tester", exp := 10, iat := 0 }

/-- A concrete stand-in for the HMAC of the token scheme. -/
def macFixture : String → Claims → Nat := fun _ c => c.sub + 100

/-- Two tasks created at the same instant, distinguished only by their
ids: a creation-time tie. -/
def tieTaskA : Task :=
  { id := 31, task_number := 7, title := "tie a", description := none
    assigned_by := 2, tester_id := none, status := TaskStatus.New
    urgency := TaskUrgency.Low, created_at := 50, closed_at := none
    acceptance_criteria := none, evaluation_criteria := none, comment := none }

def tieTaskB : Task :=
  { id := 32, task_number := 8, title := "tie b", description := none
    assigned_by := 2, tester_id := none, status := TaskStatus.New
    urgency := TaskUrgency.Low, created_at := 50, closed_at := none
    acceptance_criteria := none, evaluation_criteria := none, comment := none }

/-- The filter-free default listing request. -/
def defaultFilter : TaskFilterParams :=
  { page := none, per_page := none, status := none, urgency := none
    tester_id := none, assigned_by := none }

/-! Projection lemmas for `applyTaskUpdate`, read off the record built on
lines 258-271 of `task_handler.rs`. -/

theorem applyTaskUpdate_status (t : Task) (p : UpdateTaskRequest) (now : Timestamp) :
    (applyTaskUpdate t p now).status = p.status.getD t.status := rfl

theorem applyTaskUpdate_closed_at (t : Task) (p : UpdateTaskRequest) (now : Timestamp) :
    (applyTaskUpdate t p now).closed_at =
      if p.status.getD t.status = TaskStatus.Closed ∨
          p.status.getD t.status = TaskStatus.Done then some now
      else t.closed_at := rfl

theorem applyTaskUpdate_title (t : Task) (p : UpdateTaskRequest) (now : Timestamp) :
    (applyTaskUpdate t p now).title = p.title.getD t.title := rfl

theorem applyTaskUpdate_description (t : Task) (p : UpdateTaskRequest) (now : Timestamp) :
    (applyTaskUpdate t p now).description = p.description.or t.description := rfl

theorem applyTaskUpdate_tester_id (t : Task) (p : UpdateTaskRequest) (now : Timestamp) :
    (applyTaskUpdate t p now).tester_id = p.tester_id.or t.tester_id := rfl

theorem applyTaskUpdate_urgency (t : Task) (p : UpdateTaskRequest) (now : Timestamp) :
    (applyTaskUpdate t p now).urgency = p.urgency.getD t.urgency := rfl

theorem applyTaskUpdate_acceptance (t : Task) (p : UpdateTaskRequest) (now : Timestamp) :
    (applyTaskUpdate t p now).acceptance_criteria =
      p.acceptance_criteria.or t.acceptance_criteria := rfl

theorem applyTaskUpdate_evaluation (t : Task) (p : UpdateTaskRequest) (now : Timestamp) :
    (applyTaskUpdate t p now).evaluation_criteria =
      p.evaluation_criteria.or t.evaluation_criteria := rfl

theorem applyTaskUpdate_comment (t : Task) (p : UpdateTaskRequest) (now : Timestamp) :
    (applyTaskUpdate t p now).comment = p.comment.or t.comment := rfl

/-- An `Option.or` is `none` only when both sides are. -/
theorem or_eq_none {α : Type} (a b : Option α) : a.or b = none → b = none := by
  cases a <;> simp [Option.or]

/-- **C1** (counterexample). The claim says re-closing must not reset
`closed_at`, but `update_task` recomputes `closed_at = Some(now)` whenever
the resulting status is Done or Closed, with no null check: closing
`sampleTask` at time 100 and closing it again at time 200 leaves
`closed_at = some 200`, not its value `some 100` after the first
transition. -/
theorem c1_closed_at_reset_counterexample :
    (applyTaskUpdate sampleTask closePayload 100).closed_at = some 100 ∧
    (applyTaskUpdate (applyTaskUpdate sampleTask closePayload 100)
        closePayload 200).closed_at = some 200 ∧
    (applyTaskUpdate (applyTaskUpdate sampleTask closePayload 100)
        closePayload 200).closed_at ≠
      (applyTaskUpdate sampleTask closePayload 100).closed_at := by
  refine ⟨rfl, rfl, ?_⟩
  simp [applyTaskUpdate_closed_at, sampleTask, closePayload]

/-- **C1** (amended). On any update whose resulting status is Done or
Closed, `closed_at` is set to the current time unconditionally — also when
it was already non-null, so re-closing resets the timestamp to the later
update's time. -/
theorem c1_closed_at_always_now (t : Task) (p : UpdateTaskRequest)
    (now : Timestamp)
    (h : (applyTaskUpdate t p now).status = TaskStatus.Done ∨
      (applyTaskUpdate t p now).status = TaskStatus.Closed) :
    (applyTaskUpdate t p now).closed_at = some now := by
  rw [applyTaskUpdate_status] at h
  rw [applyTaskUpdate_closed_at, if_pos h.symm]

/-- **C1** witness: the amended theorem evaluated on the already-closed
`closedTask`. -/
theorem c1_witness :
    (applyTaskUpdate closedTask closePayload 200).closed_at = some 200 :=
  c1_closed_at_always_now closedTask closePayload 200 (Or.inr rfl)

/-- **C6**. On any update whose resulting status is neither Done nor
Closed, `closed_at` is left exactly as it was; in particular reopening a
closed task does not clear it. -/
theorem c6_closed_at_frame (t : Task) (p : UpdateTaskRequest)
    (now : Timestamp)
    (h1 : (applyTaskUpdate t p now).status ≠ TaskStatus.Done)
    (h2 : (applyTaskUpdate t p now).status ≠ TaskStatus.Closed) :
    (applyTaskUpdate t p now).closed_at = t.closed_at := by
  rw [applyTaskUpdate_status] at h1 h2
  rw [applyTaskUpdate_closed_at, if_neg]
  rintro (h | h)
  · exact h2 h
  · exact h1 h

/-- **C6** witness: reopening `closedTask` (moving its status back to New
at time 200) leaves `closed_at = some 5`. -/
theorem c6_witness :
    (applyTaskUpdate closedTask reopenPayload 200).closed_at = some 5 :=
  Trans.trans
    (c6_closed_at_frame closedTask reopenPayload 200
      (by simp [applyTaskUpdate_status, reopenPayload])
      (by simp [applyTaskUpdate_status, reopenPayload]))
    rfl

/-- **C2**. Omitted fields of an update request are retained: when
`tester_id` is absent the existing assignee is preserved, a set assignee is
never reverted to null, and every other optional field absent from the
request keeps its prior value. -/
theorem c2_omission_preserves (t : Task) (p : UpdateTaskRequest)
    (now : Timestamp) :
    (p.tester_id = none → (applyTaskUpdate t p now).tester_id = t.tester_id) ∧
    (t.tester_id ≠ none → (applyTaskUpdate t p now).tester_id ≠ none) ∧
    (p.title = none → (applyTaskUpdate t p now).title = t.title) ∧
    (p.description = none →
      (applyTaskUpdate t p now).description = t.description) ∧
    (p.status = none → (applyTaskUpdate t p now).status = t.status) ∧
    (p.urgency = none → (applyTaskUpdate t p now).urgency = t.urgency) ∧
    (p.acceptance_criteria = none →
      (applyTaskUpdate t p now).acceptance_criteria = t.acceptance_criteria) ∧
    (p.evaluation_criteria = none →
      (applyTaskUpdate t p now).evaluation_criteria = t.evaluation_criteria) ∧
    (p.comment = none → (applyTaskUpdate t p now).comment = t.comment) := by
  refine ⟨fun h => ?_, fun h hc => ?_, fun h => ?_, fun h => ?_, fun h => ?_,
    fun h => ?_, fun h => ?_, fun h => ?_, fun h => ?_⟩
  · rw [applyTaskUpdate_tester_id, h, Option.none_or]
  · rw [applyTaskUpdate_tester_id] at hc
    exact h (or_eq_none _ _ hc)
  · rw [applyTaskUpdate_title, h, Option.getD_none]
  · rw [applyTaskUpdate_description, h, Option.none_or]
  · rw [applyTaskUpdate_status, h, Option.getD_none]
  · rw [applyTaskUpdate_urgency, h, Option.getD_none]
  · rw [applyTaskUpdate_acceptance, h, Option.none_or]
  · rw [applyTaskUpdate_evaluation, h, Option.none_or]
  · rw [applyTaskUpdate_comment, h, Option.none_or]

/-- **C2** witness: the empty update on `sampleTask` keeps every field,
and its assigned tester (user 3) stays non-null. -/
theorem c2_witness :
    (applyTaskUpdate sampleTask emptyPayload 5).tester_id = sampleTask.tester_id ∧
    (applyTaskUpdate sampleTask emptyPayload 5).tester_id ≠ none ∧
    (applyTaskUpdate sampleTask emptyPayload 5).title = sampleTask.title ∧
    (applyTaskUpdate sampleTask emptyPayload 5).description = sampleTask.description ∧
    (applyTaskUpdate sampleTask emptyPayload 5).status = sampleTask.status ∧
    (applyTaskUpdate sampleTask emptyPayload 5).urgency = sampleTask.urgency ∧
    (applyTaskUpdate sampleTask emptyPayload 5).acceptance_criteria =
      sampleTask.acceptance_criteria ∧
    (applyTaskUpdate sampleTask emptyPayload 5).evaluation_criteria =
      sampleTask.evaluation_criteria ∧
    (applyTaskUpdate sampleTask emptyPayload 5).comment = sampleTask.comment :=
  ⟨(c2_omission_preserves sampleTask emptyPayload 5).1 rfl,
   (c2_omission_preserves sampleTask emptyPayload 5).2.1 (by decide),
   (c2_omission_preserves sampleTask emptyPayload 5).2.2.1 rfl,
   (c2_omission_preserves sampleTask emptyPayload 5).2.2.2.1 rfl,
   (c2_omission_preserves sampleTask emptyPayload 5).2.2.2.2.1 rfl,
   (c2_omission_preserves sampleTask emptyPayload 5).2.2.2.2.2.1 rfl,
   (c2_omission_preserves sampleTask emptyPayload 5).2.2.2.2.2.2.1 rfl,
   (c2_omission_preserves sampleTask emptyPayload 5).2.2.2.2.2.2.2.1 rfl,
   (c2_omission_preserves sampleTask emptyPayload 5).2.2.2.2.2.2.2.2 rfl⟩

/-- **C10**. No update request can revert an optional task field from a
set value back to null: if a field is null after the update it was already
null before. -/
theorem c10_no_unsetting (t : Task) (p : UpdateTaskRequest) (now : Timestamp) :
    ((applyTaskUpdate t p now).description = none → t.description = none) ∧
    ((applyTaskUpdate t p now).tester_id = none → t.tester_id = none) ∧
    ((applyTaskUpdate t p now).acceptance_criteria = none →
      t.acceptance_criteria = none) ∧
    ((applyTaskUpdate t p now).evaluation_criteria = none →
      t.evaluation_criteria = none) ∧
    ((applyTaskUpdate t p now).comment = none → t.comment = none) := by
  refine ⟨fun h => ?_, fun h => ?_, fun h => ?_, fun h => ?_, fun h => ?_⟩
  · exact or_eq_none _ _ (applyTaskUpdate_description t p now ▸ h)
  · exact or_eq_none _ _ (applyTaskUpdate_tester_id t p now ▸ h)
  · exact or_eq_none _ _ (applyTaskUpdate_acceptance t p now ▸ h)
  · exact or_eq_none _ _ (applyTaskUpdate_evaluation t p now ▸ h)
  · exact or_eq_none _ _ (applyTaskUpdate_comment t p now ▸ h)

/-- **C10** witness: evaluated on `bareTask` and the empty update, where
every optional field is indeed null on both sides. -/
theorem c10_witness :
    bareTask.description = none ∧ bareTask.tester_id = none ∧
    bareTask.acceptance_criteria = none ∧ bareTask.evaluation_criteria = none ∧
    bareTask.comment = none :=
  ⟨(c10_no_unsetting bareTask emptyPayload 5).1 rfl,
   (c10_no_unsetting bareTask emptyPayload 5).2.1 rfl,
   (c10_no_unsetting bareTask emptyPayload 5).2.2.1 rfl,
   (c10_no_unsetting bareTask emptyPayload 5).2.2.2.1 rfl,
   (c10_no_unsetting bareTask emptyPayload 5).2.2.2.2 rfl⟩

/-- **C4**. Deleting an existing task succeeds exactly for a Manager or
for its creator (`assigned_by`), with the claim's own carve-out that an
Admin caller is always forbidden even when the ownership condition holds;
every failure on an existing task is a `Forbidden` error. -/
theorem c4_delete_task_policy (auth : AuthUser) (task : Task) :
    (delete_task auth (some task) = .ok () ↔
      (auth.role = UserRole.Manager ∨
        (auth.user_id = task.assigned_by ∧ auth.role ≠ UserRole.Admin))) ∧
    (auth.role = UserRole.Admin →
      delete_task auth (some task) =
        .error (.Forbidden "Administrators cannot manage tasks")) ∧
    (∀ e, delete_task auth (some task) = .error e →
      e.kind = ErrorKind.Forbidden) := by
  obtain ⟨uid, uname, role⟩ := auth
  cases role <;> by_cases hO : uid = task.assigned_by <;>
    simp_all [delete_task, AuthUser.is_admin, AuthUser.is_manager,
      AppError.kind, eq_comm]

/-- **C4** witness: a Manager deletes another user's task; an Admin is
forbidden on the same task. -/
theorem c4_witness :
    delete_task managerAuth (some sampleTask) = .ok () ∧
    delete_task adminAuth (some sampleTask) =
      .error (.Forbidden "Administrators cannot manage tasks") :=
  ⟨(c4_delete_task_policy managerAuth sampleTask).1.mpr (Or.inl rfl),
   (c4_delete_task_policy adminAuth sampleTask).2.1 rfl⟩

/-- **C9**. Task creation and task update are rejected with `Forbidden`
exactly when the caller is an Admin: an Admin always gets the Forbidden
error, and no non-admin caller can ever receive a Forbidden result from
either handler. -/
theorem c9_admin_excluded (auth : AuthUser) (cp : CreateTaskRequest)
    (eopt : Option Task) (up : UpdateTaskRequest) (now : Timestamp) :
    (auth.role = UserRole.Admin →
      create_task auth cp =
        .error (.Forbidden "Administrators cannot create tasks") ∧
      update_task auth eopt up now =
        .error (.Forbidden "Administrators cannot edit tasks")) ∧
    (auth.role ≠ UserRole.Admin →
      errorKind (create_task auth cp) ≠ some ErrorKind.Forbidden ∧
      errorKind (update_task auth eopt up now) ≠ some ErrorKind.Forbidden) := by
  constructor
  · intro hA
    constructor <;> simp [create_task, update_task, AuthUser.is_admin, hA]
  · intro hA
    constructor
    · simp only [create_task, AuthUser.is_admin]
      split_ifs <;> simp_all [errorKind, AppError.kind]
    · cases eopt <;> simp only [update_task, AuthUser.is_admin] <;>
        split_ifs <;> simp_all [errorKind, AppError.kind]

/-- **C9** witness: an Admin is forbidden to create and to edit; a Tester
is never answered with Forbidden on the same requests. -/
theorem c9_witness :
    (create_task adminAuth sampleCreate =
        .error (.Forbidden "Administrators cannot create tasks") ∧
      update_task adminAuth (some sampleTask) emptyPayload 5 =
        .error (.Forbidden "Administrators cannot edit tasks")) ∧
    (errorKind (create_task testerAuth sampleCreate) ≠
        some ErrorKind.Forbidden ∧
      errorKind (update_task testerAuth (some sampleTask) emptyPayload 5) ≠
        some ErrorKind.Forbidden) :=
  ⟨(c9_admin_excluded adminAuth sampleCreate (some sampleTask)
      emptyPayload 5).1 rfl,
   (c9_admin_excluded testerAuth sampleCreate (some sampleTask)
      emptyPayload 5).2 (by decide)⟩

/-- **C5** (counterexample). The claim says a self-delete fails with
`BadRequest` for every role, checked independently of the user-management
permission; but `delete_user` runs `require_admin` first, so a Tester
deleting their own account gets `Forbidden`, not `BadRequest`. -/
theorem c5_nonadmin_self_delete_counterexample :
    delete_user testerAuth testerAuth.user_id 1 =
      .error (.Forbidden "Only administrators can manage users") ∧
    errorKind (delete_user testerAuth testerAuth.user_id 1) ≠
      some ErrorKind.BadRequest :=
  ⟨rfl, by decide⟩

/-- **C5** (amended). The self-delete guard fires only after the
admin-only permission check: an Admin deleting their own account fails
with `BadRequest`, while any non-admin caller (self-targeting or not)
fails earlier with `Forbidden`. -/
theorem c5_self_delete_guard (auth : AuthUser) (id : Uuid) (rows : Nat) :
    (auth.role = UserRole.Admin → id = auth.user_id →
      delete_user auth id rows =
        .error (.BadRequest "Cannot delete your own account")) ∧
    (auth.role ≠ UserRole.Admin →
      delete_user auth id rows =
        .error (.Forbidden "Only administrators can manage users")) := by
  constructor
  · intro hA hid
    simp [delete_user, require_admin, AuthUser.is_admin, hA, hid]
  · intro hA
    simp [delete_user, require_admin, AuthUser.is_admin, hA]

/-- **C5** witness: an Admin self-delete hits the `BadRequest` guard; a
Tester deleting someone else is already `Forbidden`. -/
theorem c5_witness :
    delete_user adminAuth adminAuth.user_id 1 =
      .error (.BadRequest "Cannot delete your own account") ∧
    delete_user testerAuth 99 1 =
      .error (.Forbidden "Only administrators can manage users") :=
  ⟨(c5_self_delete_guard adminAuth adminAuth.user_id 1).1 rfl rfl,
   (c5_self_delete_guard testerAuth 99 1).2 (by decide)⟩

/-- **C7**. A correct-password login on a deactivated account fails with
`Unauthorized`, and that error has the same shape (variant, hence HTTP
status) as the errors for an absent username and for a wrong password. -/
theorem c7_inactive_unauthorized (users : List User)
    (hashParses : String → Bool) (pwMatches : String → String → Bool)
    (pl1 pl2 pl3 : LoginRequest) (u1 u3 : User)
    (hv1 : pl1.valid = true)
    (hf1 : find_user_by_username users pl1.username = some u1)
    (hi1 : u1.is_active = false)
    (hv2 : pl2.valid = true)
    (hf2 : find_user_by_username users pl2.username = none)
    (hv3 : pl3.valid = true)
    (hf3 : find_user_by_username users pl3.username = some u3)
    (hi3 : u3.is_active = true)
    (hh3 : hashParses u3.password_hash = true)
    (hw3 : pwMatches pl3.password u3.password_hash = false) :
    errorKind (login users hashParses pwMatches pl1) =
      some ErrorKind.Unauthorized ∧
    errorKind (login users hashParses pwMatches pl2) =
      some ErrorKind.Unauthorized ∧
    errorKind (login users hashParses pwMatches pl3) =
      some ErrorKind.Unauthorized ∧
    errorKind (login users hashParses pwMatches pl1) =
      errorKind (login users hashParses pwMatches pl2) ∧
    errorKind (login users hashParses pwMatches pl1) =
      errorKind (login users hashParses pwMatches pl3) := by
  have e1 : errorKind (login users hashParses pwMatches pl1) =
      some ErrorKind.Unauthorized := by
    simp [login, hv1, hf1, hi1, errorKind, AppError.kind]
  have e2 : errorKind (login users hashParses pwMatches pl2) =
      some ErrorKind.Unauthorized := by
    simp [login, hv2, hf2, errorKind, AppError.kind]
  have e3 : errorKind (login users hashParses pwMatches pl3) =
      some ErrorKind.Unauthorized := by
    simp [login, hv3, hf3, hi3, hh3, hw3, errorKind, AppError.kind]
  exact ⟨e1, e2, e3, e1.trans e2.symm, e1.trans e3.symm⟩

/-- **C7** witness: over `userTable`, the inactive `dora` with the right
password, the absent `ghost`, and `finn` with a wrong password all draw an
`Unauthorized`-shaped error. -/
theorem c7_witness :
    errorKind (login userTable (fun _ => true) (fun _ _ => false)
      { username := "dora", password := "pw" }) =
      some ErrorKind.Unauthorized ∧
    errorKind (login userTable (fun _ => true) (fun _ _ => false)
      { username := "ghost", password := "pw" }) =
      some ErrorKind.Unauthorized ∧
    errorKind (login userTable (fun _ => true) (fun _ _ => false)
      { username := "finn", password := "pw" }) =
      some ErrorKind.Unauthorized ∧
    errorKind (login userTable (fun _ => true) (fun _ _ => false)
      { username := "dora", password := "pw" }) =
      errorKind (login userTable (fun _ => true) (fun _ _ => false)
        { username := "ghost", password := "pw" }) ∧
    errorKind (login userTable (fun _ => true) (fun _ _ => false)
      { username := "dora", password := "pw" }) =
      errorKind (login userTable (fun _ => true) (fun _ _ => false)
        { username := "finn", password := "pw" }) :=
  c7_inactive_unauthorized userTable (fun _ => true) (fun _ _ => false)
    { username := "dora", password := "pw" }
    { username := "ghost", password := "pw" }
    { username := "finn", password := "pw" }
    inactiveUser activeUser
    (by decide) (by decide) (by decide) (by decide) (by decide)
    (by decide) (by decide) (by decide) rfl rfl

/-- **C3**. `verify_token` fails with `Unauthorized` on every token whose
signature does not match the MAC of its claims under the server secret,
and on every token whose expiry satisfies now ≥ expires-at; flipping any
single bit of the signature of a validly signed token lands in the first
case (a flip inside the claims changes the payload, so it is rejected
whenever the MAC separates the two payloads — again the first case). -/
theorem c3_verify_rejects (mac : String → Claims → Nat) (secret : String)
    (now : Nat) (tok : Token) :
    (tok.sig ≠ mac secret tok.claims →
      verify_token mac secret now tok =
        .error (.Unauthorized "Invalid token")) ∧
    (tok.claims.exp ≤ now →
      verify_token mac secret now tok =
        .error (.Unauthorized "Invalid token")) ∧
    (∀ i : Nat, tok.sig = mac secret tok.claims →
      verify_token mac secret now { tok with sig := tok.sig ^^^ 2 ^ i } =
        .error (.Unauthorized "Invalid token")) := by
  refine ⟨fun h => ?_, fun h => ?_, fun i h => ?_⟩
  · rw [verify_token, if_neg]
    rintro ⟨hs, -⟩
    exact h hs
  · rw [verify_token, if_neg]
    rintro ⟨-, hlt⟩
    exact absurd h (Nat.not_le.mpr hlt)
  · rw [verify_token, if_neg]
    rintro ⟨hs, -⟩
    rw [show ({ tok with sig := tok.sig ^^^ 2 ^ i } : Token).claims =
      tok.claims from rfl, ← h] at hs
    have h2 : 2 ^ i = 0 := by
      have h3 := congrArg (fun x => tok.sig ^^^ x) hs
      simp [← Nat.xor_assoc] at h3
    exact absurd h2 (Nat.pos_iff_ne_zero.mp (Nat.pos_pow_of_pos i
      (by norm_num)))

/-- **C3** witness: with a concrete MAC, a wrong signature, an expired
token, and a one-bit signature flip of a valid token are all rejected. -/
theorem c3_witness :
    verify_token macFixture "k" 0 { claims := sampleClaims, sig := 7 } =
      .error (.Unauthorized "Invalid token") ∧
    verify_token macFixture "k" 10 { claims := sampleClaims, sig := 101 } =
      .error (.Unauthorized "Invalid token") ∧
    verify_token macFixture "k" 0
        { claims := sampleClaims, sig := 101 ^^^ 2 ^ 3 } =
      .error (.Unauthorized "Invalid token") :=
  ⟨(c3_verify_rejects macFixture "k" 0
      { claims := sampleClaims, sig := 7 }).1 (by decide),
   (c3_verify_rejects macFixture "k" 10
      { claims := sampleClaims, sig := 101 }).2.1 (by decide),
   (c3_verify_rejects macFixture "k" 0
      { claims := sampleClaims, sig := 101 }).2.2 3 rfl⟩

/-- **C8** (counterexample). The query orders by `created_at DESC` with no
secondary key, so SQL does not determine the relative order of tasks tied
on creation time: for the two tied tasks `tieTaskA`/`tieTaskB`, both
response orders are legal results of the same request — the order is not
made reproducible by any deterministic tie-break. -/
theorem c8_tie_order_counterexample :
    getTasksResult [tieTaskA, tieTaskB] defaultFilter [tieTaskA, tieTaskB] ∧
    getTasksResult [tieTaskA, tieTaskB] defaultFilter [tieTaskB, tieTaskA] ∧
    ([tieTaskA, tieTaskB] : List Task) ≠ [tieTaskB, tieTaskA] := by
  refine ⟨⟨[tieTaskA, tieTaskB], ?_, by decide, by decide⟩,
    ⟨[tieTaskB, tieTaskA], ?_, by decide, by decide⟩, by decide⟩
  · have hf : ([tieTaskA, tieTaskB].filter (matchesFilters defaultFilter)) =
        [tieTaskA, tieTaskB] := rfl
    rw [hf]
  · have hf : ([tieTaskA, tieTaskB].filter (matchesFilters defaultFilter)) =
        [tieTaskA, tieTaskB] := rfl
    rw [hf]
    exact List.Perm.swap tieTaskA tieTaskB []

/-- **C8** (amended). Task listings are ordered by creation time
descending; the query applies no secondary tie-break key, so the order of
tasks with equal creation time is left unspecified. -/
theorem c8_sorted_by_created_at (db : List Task) (params : TaskFilterParams)
    (out : List Task) (h : getTasksResult db params out) :
    out.Pairwise createdAtDesc := by
  obtain ⟨arr, -, hsort, hout⟩ := h
  subst hout
  exact hsort.sublist ((List.take_sublist _ _).trans (List.drop_sublist _ _))

/-- **C8** witness: a concrete valid response is sorted by creation time
descending. -/
theorem c8_witness : ([tieTaskA, tieTaskB] : List Task).Pairwise createdAtDesc :=
  c8_sorted_by_created_at [tieTaskA, tieTaskB] defaultFilter
    [tieTaskA, tieTaskB]
    ⟨[tieTaskA, tieTaskB], by
      have hf : ([tieTaskA, tieTaskB].filter (matchesFilters defaultFilter)) =
          [tieTaskA, tieTaskB] := rfl
      rw [hf], by decide, by decide⟩

end TestFlow
